import Mathlib

/-!
Verification of `python/flashinfer/jit/__init__.py`: the JIT build
orchestration layer of FlashInfer.  We shallowly embed the module's
functions — the CUDA architecture check, the cache-clearing utility, the
nvcc flag sanitization, the workspace/registry setup at import time and
the `load_cuda_ops` entry point — and prove the specified properties
about them.
-/

namespace FlashInferJit

/-- Python exceptions that can arise in the embedded code paths.
`attributeError` models calling `.group(1)` on `None` when `re.search`
fails; `runtimeError` models `raise RuntimeError(msg)`; `valueError`
models `list.remove` on a missing element; `isADirectoryError` models
`os.remove` applied to a directory. -/
inductive PyError where
  | attributeError : PyError
  | runtimeError : String → PyError
  | valueError : PyError
  | isADirectoryError : PyError
deriving DecidableEq

instance {ε α : Type} [DecidableEq ε] [DecidableEq α] : DecidableEq (Except ε α) := by
  intro x y
  cases x <;> cases y <;> first
    | exact isFalse (fun h => Except.noConfusion h)
    | exact decidable_of_iff _ (by rw [Except.error.injEq])
    | exact decidable_of_iff _ (by rw [Except.ok.injEq])

/-- Value of a digit string, as computed by Python `int` on the digits
captured by the regex group. -/
def digitsToNat (ds : List Char) : Nat :=
  ds.foldl (fun a c => a * 10 + (c.toNat - 48)) 0

/-- The literal part of the pattern `compute_(\d+)`. -/
def computeMarker : List Char := "compute_".toList

/-- Attempt to match `compute_(\d+)` at the head of `cs`; on success
return the value of the captured digit group (greedy `\d+`). -/
def matchComputeAt (cs : List Char) : Option Nat :=
  if computeMarker.isPrefixOf cs then
    match cs.drop computeMarker.length with
    | [] => none
    | c :: rest =>
      if c.isDigit then some (digitsToNat ((c :: rest).takeWhile Char.isDigit))
      else none
  else none

/-- Leftmost-match search: scan for the first position where
`compute_(\d+)` matches, as `re.search` does. -/
def searchComputeAux : List Char → Option Nat
  | [] => none
  | c :: rest =>
    match matchComputeAt (c :: rest) with
    | some n => some n
    | none => searchComputeAux rest

/-- `re.search(r"compute_(\d+)", s)` followed by `int(m.group(1))`,
returning `none` when the pattern does not occur in `s`. -/
def searchCompute (s : String) : Option Nat :=
  searchComputeAux s.toList

/-- Embedding of `check_cuda_arch`, iterating over the flag strings
returned by `torch_cpp_ext._get_cuda_arch_flags()`.  A flag without the
`compute_<digits>` marker makes `.group(1)` fail on `None`
(`attributeError`); an extracted architecture below 75 raises
`RuntimeError("FlashInfer requires sm75+")`. -/
def check_cuda_arch : List String → Except PyError Unit
  | [] => Except.ok ()
  | f :: rest =>
    match searchCompute f with
    | none => Except.error PyError.attributeError
    | some arch =>
      if arch < 75 then Except.error (PyError.runtimeError "FlashInfer requires sm75+")
      else check_cuda_arch rest

/-- Embedding of Python `list.remove`: delete the first element equal to
`x`, raising `ValueError` when no element matches. -/
def list_remove (x : String) : List String → Except PyError (List String)
  | [] => Except.error PyError.valueError
  | y :: ys =>
    if y = x then Except.ok ys
    else (list_remove x ys).map (fun r => y :: r)

/-- The four flags removed from `torch_cpp_ext.COMMON_NVCC_FLAGS` by
`remove_unwanted_pytorch_nvcc_flags`. -/
def REMOVE_NVCC_FLAGS : List String :=
  ["-D__CUDA_NO_HALF_OPERATORS__",
   "-D__CUDA_NO_HALF_CONVERSIONS__",
   "-D__CUDA_NO_BFLOAT16_CONVERSIONS__",
   "-D__CUDA_NO_HALF2_OPERATORS__"]

/-- One iteration of the sanitization loop: `try: flags.remove(flag)
except ValueError: pass`.  A `ValueError` is swallowed, any other
exception would propagate. -/
def removeFlagCaught (acc : List String) (flag : String) : Except PyError (List String) :=
  match list_remove flag acc with
  | Except.ok r => Except.ok r
  | Except.error PyError.valueError => Except.ok acc
  | Except.error e => Except.error e

/-- Embedding of `remove_unwanted_pytorch_nvcc_flags`, acting on the
current contents of the shared `COMMON_NVCC_FLAGS` list. -/
def remove_unwanted_pytorch_nvcc_flags (flags : List String) : Except PyError (List String) :=
  REMOVE_NVCC_FLAGS.foldlM removeFlagCaught flags

/-- Kind of a directory entry as seen by `os.listdir`. -/
inductive EntryKind where
  | file : EntryKind
  | dir : EntryKind
deriving DecidableEq

/-- A directory entry: a file name together with whether it is a regular
file or a subdirectory. -/
structure DirEntry where
  entryName : String
  kind : EntryKind
deriving DecidableEq

/-- The `os.remove` loop of `clear_cache_dir`: remove each listed entry
in order.  `os.remove` deletes a regular file but raises
`IsADirectoryError` on a directory, aborting the loop there.  Returns
the raised exception (if any) and the entries still present. -/
def removeEntries : List DirEntry → Option PyError × List DirEntry
  | [] => (none, [])
  | e :: rest =>
    match e.kind with
    | EntryKind.file => removeEntries rest
    | EntryKind.dir => (some PyError.isADirectoryError, e :: rest)

/-- Embedding of `clear_cache_dir`: if the JIT directory exists, delete
each of its entries with `os.remove`; otherwise do nothing.  Returns the
exception raised (if any), the remaining entries, and whether the
directory itself still exists (it is never removed). -/
def clear_cache_dir (jitDirExists : Bool) (entries : List DirEntry) :
    Option PyError × List DirEntry × Bool :=
  if jitDirExists then
    let r := removeEntries entries
    (r.1, r.2, jitDirExists)
  else (none, entries, jitDirExists)

/-- Embedding of the import-time workspace setup
`if not os.path.exists(FLASHINFER_WORKSPACE_DIR): os.makedirs(...)`.
The file system is modelled as the list of existing paths; `makedirs`
adds the directory, and nothing is touched when it already exists. -/
def make_workspace_dir (fs : List String) (dir : String) : List String :=
  if dir ∈ fs then fs else dir :: fs

/-- Embedding of the optional `aot_config` import: `imported` is `some`
registry when the module is importable and `none` when the import
raises `ImportError`.  Returns the resulting `prebuilt_ops_uri` set and
the `has_prebuilt_ops` indicator. -/
def init_prebuilt_ops (imported : Option (List String)) : List String × Bool :=
  match imported with
  | some uris => (uris, true)
  | none => ([], false)

/-- Environment of `load_cuda_ops`: the architecture flag strings
returned by `torch_cpp_ext._get_cuda_arch_flags()` and the path
constants imported from the `env` sibling module. -/
structure JitEnv where
  cudaArchFlags : List String
  jitDir : String
  includeDir : String
  csrcDir : String
  cutlassIncludeDirs : List String

/-- The argument record of the final `torch_cpp_ext.load(...)` call. -/
structure LoadCall where
  loadName : String
  sources : List String
  extra_cflags : List String
  extra_cuda_cflags : List String
  extra_ldflags : Option (List String)
  extra_include_paths : List String
  build_directory : String
  verbose : Bool
  with_cuda : Bool
deriving DecidableEq

/-- Observable effects of one `load_cuda_ops` invocation: whether the
underlying loader was invoked, whether the per-module build directory
was created, the lock file path acquired, and the argument record of
the loader call. -/
structure LoadTrace where
  loaderCalled : Bool
  buildDirCreated : Bool
  lockPath : Option String
  loadArgs : Option LoadCall
deriving DecidableEq

/-- Embedding of `load_cuda_ops`.  `buildDirExists` is whether
`FLASHINFER_JIT_DIR / name` already exists; `loader` is the external
`torch_cpp_ext.load` call, which may raise.  Returns the result
(normal return or propagated exception) together with the effect
trace. -/
def load_cuda_ops {M : Type} (env : JitEnv) (buildDirExists : Bool)
    (loader : LoadCall → Except PyError M)
    (name : String) (sources : List String)
    (extra_cflags extra_cuda_cflags : List String)
    (extra_ldflags : Option (List String))
    (extra_include_paths : Option (List String))
    (verbose : Bool) : Except PyError M × LoadTrace :=
  let cflags := ["-O3", "-Wno-switch-bool"] ++ extra_cflags
  let cuda_cflags :=
    ["-O3", "-std=c++17", "--threads", "4", "-use_fast_math",
     "-DFLASHINFER_ENABLE_BF16", "-DFLASHINFER_ENABLE_FP8"] ++ extra_cuda_cflags
  match check_cuda_arch env.cudaArchFlags with
  | Except.error e => (Except.error e, ⟨false, false, none, none⟩)
  | Except.ok _ =>
    let build_directory := env.jitDir ++ "/" ++ name
    let include_paths :=
      match extra_include_paths with
      | none => [env.includeDir, env.csrcDir] ++ env.cutlassIncludeDirs
      | some ps => ps
    let lockPath := env.jitDir ++ "/" ++ name ++ ".lock"
    let call : LoadCall :=
      ⟨name, sources, cflags, cuda_cflags, extra_ldflags, include_paths,
       build_directory, verbose, true⟩
    (loader call, ⟨true, !buildDirExists, some lockPath, some call⟩)

lemma check_cuda_arch_nil : check_cuda_arch [] = Except.ok () := rfl

lemma check_cuda_arch_cons_some (f : String) (rest : List String) (a : Nat)
    (ha : searchCompute f = some a) :
    check_cuda_arch (f :: rest) =
      if a < 75 then Except.error (PyError.runtimeError "FlashInfer requires sm75+")
      else check_cuda_arch rest := by
  simp [check_cuda_arch, ha]

lemma check_cuda_arch_cons_none (f : String) (rest : List String)
    (ha : searchCompute f = none) :
    check_cuda_arch (f :: rest) = Except.error PyError.attributeError := by
  simp [check_cuda_arch, ha]

lemma check_cuda_arch_ok_iff : ∀ (flags : List String),
    (∀ f ∈ flags, (searchCompute f).isSome) →
    (check_cuda_arch flags = Except.ok () ↔
      ∀ f ∈ flags, ∀ a, searchCompute f = some a → 75 ≤ a)
  | [], _ => by simp [check_cuda_arch_nil]
  | f :: rest, h => by
    obtain ⟨a, ha⟩ := Option.isSome_iff_exists.mp (h f (List.mem_cons_self f rest))
    have hrest := check_cuda_arch_ok_iff rest (fun g hg => h g (List.mem_cons_of_mem f hg))
    rw [check_cuda_arch_cons_some f rest a ha]
    by_cases hlt : a < 75
    · rw [if_pos hlt]
      constructor
      · intro hc
        exact absurd hc (by simp)
      · intro hall
        exact absurd (hall f (List.mem_cons_self f rest) a ha) (by omega)
    · rw [if_neg hlt, hrest]
      constructor
      · intro hall g hg b hb
        rcases List.mem_cons.mp hg with hg | hg
        · subst hg
          rw [ha] at hb
          cases hb
          omega
        · exact hall g hg b hb
      · intro hall g hg b hb
        exact hall g (List.mem_cons_of_mem f hg) b hb

lemma check_cuda_arch_ok_or_error (flags : List String) :
    check_cuda_arch flags = Except.ok () ∨
      ∃ e, check_cuda_arch flags = Except.error e := by
  cases hc : check_cuda_arch flags with
  | ok a => cases a; exact Or.inl rfl
  | error e => exact Or.inr ⟨e, rfl⟩

/-- C1: for every list of CUDA architecture flag strings each containing
a `compute_<digits>` marker, `check_cuda_arch` raises an exception iff
at least one extracted architecture number is strictly below 75, and
returns normally when every extracted number is at least 75. -/
theorem check_cuda_arch_accepts_iff_all_ge75 (flags : List String)
    (h : ∀ f ∈ flags, (searchCompute f).isSome) :
    ((∃ e, check_cuda_arch flags = Except.error e) ↔
      ∃ f ∈ flags, ∃ a, searchCompute f = some a ∧ a < 75) ∧
    ((∀ f ∈ flags, ∀ a, searchCompute f = some a → 75 ≤ a) →
      check_cuda_arch flags = Except.ok ()) := by
  have hok := check_cuda_arch_ok_iff flags h
  constructor
  · constructor
    · rintro ⟨e, he⟩
      by_contra hno
      push_neg at hno
      rw [hok.mpr hno] at he
      exact Except.noConfusion he
    · rintro ⟨f, hf, a, ha, hlt⟩
      rcases check_cuda_arch_ok_or_error flags with hc | ⟨e, he⟩
      · have := hok.mp hc f hf a ha
        omega
      · exact ⟨e, he⟩
  · exact hok.mpr

/-- Witness for C1 at the concrete flag list
`["compute_80", "compute_70"]`. -/
theorem check_cuda_arch_accepts_iff_all_ge75_witness :
    ((∃ e, check_cuda_arch ["compute_80", "compute_70"] = Except.error e) ↔
      ∃ f ∈ ["compute_80", "compute_70"], ∃ a, searchCompute f = some a ∧ a < 75) ∧
    ((∀ f ∈ ["compute_80", "compute_70"], ∀ a, searchCompute f = some a → 75 ≤ a) →
      check_cuda_arch ["compute_80", "compute_70"] = Except.ok ()) :=
  check_cuda_arch_accepts_iff_all_ge75 ["compute_80", "compute_70"] (by decide)

/-- C9: under the precondition that every flag string contains a
`compute_<digits>` marker, the only exit paths of `check_cuda_arch` are
a normal return or the deliberate sm75 `RuntimeError`; a flag without
the marker (with all flags before it passing the check) instead makes
the function fail with an unintended `AttributeError`. -/
theorem check_cuda_arch_totality :
    (∀ flags, (∀ f ∈ flags, (searchCompute f).isSome) →
      check_cuda_arch flags = Except.ok () ∨
      check_cuda_arch flags = Except.error (PyError.runtimeError "FlashInfer requires sm75+")) ∧
    (∀ pre f post, (∀ g ∈ pre, ∃ a, searchCompute g = some a ∧ 75 ≤ a) →
      searchCompute f = none →
      check_cuda_arch (pre ++ f :: post) = Except.error PyError.attributeError) := by
  constructor
  · intro flags
    induction flags with
    | nil => exact fun _ => Or.inl check_cuda_arch_nil
    | cons g rest ih =>
      intro h
      obtain ⟨a, ha⟩ := Option.isSome_iff_exists.mp (h g (List.mem_cons_self g rest))
      rw [check_cuda_arch_cons_some g rest a ha]
      by_cases hlt : a < 75
      · rw [if_pos hlt]
        exact Or.inr rfl
      · rw [if_neg hlt]
        exact ih (fun x hx => h x (List.mem_cons_of_mem g hx))
  · intro pre
    induction pre with
    | nil =>
      intro f post _ hf
      simpa using check_cuda_arch_cons_none f post hf
    | cons g pre' ih =>
      intro f post hpre hf
      obtain ⟨a, ha, hge⟩ := hpre g (List.mem_cons_self g pre')
      rw [List.cons_append, check_cuda_arch_cons_some g _ a ha, if_neg (by omega)]
      exact ih f post (fun x hx => hpre x (List.mem_cons_of_mem g hx)) hf

/-- Witness for C9: the marker precondition holds of `["compute_80"]`,
and the flag `"sm_90"` (no marker) triggers the `AttributeError`. -/
theorem check_cuda_arch_totality_witness :
    (check_cuda_arch ["compute_80"] = Except.ok () ∨
      check_cuda_arch ["compute_80"] = Except.error (PyError.runtimeError "FlashInfer requires sm75+")) ∧
    check_cuda_arch (["compute_80"] ++ "sm_90" :: []) = Except.error PyError.attributeError :=
  ⟨check_cuda_arch_totality.1 ["compute_80"] (by decide),
   check_cuda_arch_totality.2 ["compute_80"] "sm_90" []
     (by
       intro g hg
       have hgg := List.mem_singleton.mp hg
       subst hgg
       exact ⟨80, by decide, by omega⟩)
     (by decide)⟩

lemma list_remove_of_mem (x : String) : ∀ (l : List String), x ∈ l →
    list_remove x l = Except.ok (l.erase x)
  | [], h => absurd h (List.not_mem_nil x)
  | y :: ys, h => by
    rw [List.erase_cons]
    by_cases hyx : y = x
    · simp [list_remove, hyx]
    · have hx : x ∈ ys := by
        rcases List.mem_cons.mp h with h | h
        · exact absurd h.symm hyx
        · exact h
      have hbeq : (y == x) = false := beq_eq_false_iff_ne.mpr hyx
      simp only [list_remove, if_neg hyx, list_remove_of_mem x ys hx, hbeq]
      rfl

lemma list_remove_of_not_mem (x : String) : ∀ (l : List String), x ∉ l →
    list_remove x l = Except.error PyError.valueError
  | [], _ => rfl
  | y :: ys, h => by
    have hyx : ¬ y = x := fun hc => h (hc ▸ List.mem_cons_self y ys)
    have hx : x ∉ ys := fun hc => h (List.mem_cons_of_mem y hc)
    simp only [list_remove, if_neg hyx, list_remove_of_not_mem x ys hx]
    rfl

lemma removeFlagCaught_eq (acc : List String) (f : String) :
    removeFlagCaught acc f = Except.ok (acc.erase f) := by
  by_cases hf : f ∈ acc
  · simp [removeFlagCaught, list_remove_of_mem f acc hf]
  · simp [removeFlagCaught, list_remove_of_not_mem f acc hf,
      List.erase_of_not_mem hf]

lemma remove_unwanted_eq (l : List String) :
    remove_unwanted_pytorch_nvcc_flags l =
      Except.ok ((((l.erase "-D__CUDA_NO_HALF_OPERATORS__").erase
        "-D__CUDA_NO_HALF_CONVERSIONS__").erase
        "-D__CUDA_NO_BFLOAT16_CONVERSIONS__").erase
        "-D__CUDA_NO_HALF2_OPERATORS__") := by
  simp [remove_unwanted_pytorch_nvcc_flags, REMOVE_NVCC_FLAGS, List.foldlM,
    removeFlagCaught_eq]
  rfl

lemma count_erase_le (x y : String) (l : List String) :
    (l.erase y).count x ≤ l.count x :=
  (List.erase_sublist y l).count_le x

/-- Counterexample to C4 as stated: when the shared flag list contains
the unwanted flag `-D__CUDA_NO_HALF_OPERATORS__` twice, a second run of
`remove_unwanted_pytorch_nvcc_flags` removes a further occurrence, so
sanitization is not idempotent on lists with duplicates. -/
theorem remove_unwanted_flags_not_idempotent :
    (remove_unwanted_pytorch_nvcc_flags
        ["-D__CUDA_NO_HALF_OPERATORS__", "-D__CUDA_NO_HALF_OPERATORS__"]).bind
      remove_unwanted_pytorch_nvcc_flags ≠
    remove_unwanted_pytorch_nvcc_flags
        ["-D__CUDA_NO_HALF_OPERATORS__", "-D__CUDA_NO_HALF_OPERATORS__"] := by
  decide

/-- C4 (amended): flag sanitization is idempotent on every flag list in
which each of the four unwanted flags occurs at most once — running
`remove_unwanted_pytorch_nvcc_flags` twice then yields the same final
flag list as running it once. -/
theorem remove_unwanted_flags_idempotent (l : List String)
    (h : ∀ f ∈ REMOVE_NVCC_FLAGS, l.count f ≤ 1) :
    (remove_unwanted_pytorch_nvcc_flags l).bind remove_unwanted_pytorch_nvcc_flags =
      remove_unwanted_pytorch_nvcc_flags l := by
  have hA := h "-D__CUDA_NO_HALF_OPERATORS__" (by simp [REMOVE_NVCC_FLAGS])
  have hB := h "-D__CUDA_NO_HALF_CONVERSIONS__" (by simp [REMOVE_NVCC_FLAGS])
  have hC := h "-D__CUDA_NO_BFLOAT16_CONVERSIONS__" (by simp [REMOVE_NVCC_FLAGS])
  have hD := h "-D__CUDA_NO_HALF2_OPERATORS__" (by simp [REMOVE_NVCC_FLAGS])
  set A := "-D__CUDA_NO_HALF_OPERATORS__" with hAdef
  set B := "-D__CUDA_NO_HALF_CONVERSIONS__" with hBdef
  set C := "-D__CUDA_NO_BFLOAT16_CONVERSIONS__" with hCdef
  set D := "-D__CUDA_NO_HALF2_OPERATORS__" with hDdef
  set l1 := l.erase A with hl1
  set l2 := l1.erase B with hl2
  set l3 := l2.erase C with hl3
  set r := l3.erase D with hr
  have hA0 : r.count A = 0 := by
    have h1 : l1.count A = l.count A - 1 := List.count_erase_self A l
    have h2 := count_erase_le A B l1
    have h3 := count_erase_le A C l2
    have h4 := count_erase_le A D l3
    rw [← hl2] at h2
    rw [← hl3] at h3
    rw [← hr] at h4
    omega
  have hB0 : r.count B = 0 := by
    have h1 := count_erase_le B A l
    have h2 : l2.count B = l1.count B - 1 := List.count_erase_self B l1
    have h3 := count_erase_le B C l2
    have h4 := count_erase_le B D l3
    rw [← hl1] at h1
    rw [← hl3] at h3
    rw [← hr] at h4
    omega
  have hC0 : r.count C = 0 := by
    have h1 := count_erase_le C A l
    have h2 := count_erase_le C B l1
    have h3 : l3.count C = l2.count C - 1 := List.count_erase_self C l2
    have h4 := count_erase_le C D l3
    rw [← hl1] at h1
    rw [← hl2] at h2
    rw [← hr] at h4
    omega
  have hD0 : r.count D = 0 := by
    have h1 := count_erase_le D A l
    have h2 := count_erase_le D B l1
    have h3 := count_erase_le D C l2
    have h4 : r.count D = l3.count D - 1 := List.count_erase_self D l3
    rw [← hl1] at h1
    rw [← hl2] at h2
    rw [← hl3] at h3
    omega
  have hAe : r.erase A = r := List.erase_of_not_mem (List.count_eq_zero.mp hA0)
  have hBe : r.erase B = r := List.erase_of_not_mem (List.count_eq_zero.mp hB0)
  have hCe : r.erase C = r := List.erase_of_not_mem (List.count_eq_zero.mp hC0)
  have hDe : r.erase D = r := List.erase_of_not_mem (List.count_eq_zero.mp hD0)
  have honce : remove_unwanted_pytorch_nvcc_flags l = Except.ok r := by
    rw [remove_unwanted_eq l, ← hAdef, ← hBdef, ← hCdef, ← hDdef,
      ← hl1, ← hl2, ← hl3, ← hr]
  have htwice : remove_unwanted_pytorch_nvcc_flags r = Except.ok r := by
    rw [remove_unwanted_eq r, ← hAdef, ← hBdef, ← hCdef, ← hDdef,
      hAe, hBe, hCe, hDe]
  rw [honce]
  simpa [Except.bind] using htwice

/-- Witness for the amended C4 at a concrete flag list containing one
unwanted flag once, plus unrelated flags. -/
theorem remove_unwanted_flags_idempotent_witness :
    (remove_unwanted_pytorch_nvcc_flags
        ["-O3", "-D__CUDA_NO_HALF_OPERATORS__", "-std=c++17"]).bind
      remove_unwanted_pytorch_nvcc_flags =
    remove_unwanted_pytorch_nvcc_flags
        ["-O3", "-D__CUDA_NO_HALF_OPERATORS__", "-std=c++17"] :=
  remove_unwanted_flags_idempotent
    ["-O3", "-D__CUDA_NO_HALF_OPERATORS__", "-std=c++17"] (by decide)

/-- C6: attempting to remove a flag that is not present in the shared
flag list is silently ignored — the whole sanitization pass returns
normally on every input, and a single removal step for a missing flag
swallows the `ValueError` and leaves the list unchanged. -/
theorem remove_unwanted_flags_missing_flag_ignored (l : List String) :
    (∃ r, remove_unwanted_pytorch_nvcc_flags l = Except.ok r) ∧
    (∀ f, f ∉ l → removeFlagCaught l f = Except.ok l) := by
  refine ⟨⟨_, remove_unwanted_eq l⟩, ?_⟩
  intro f hf
  simp [removeFlagCaught, list_remove_of_not_mem f l hf]

/-- Witness for C6 at a concrete flag list with a missing flag. -/
theorem remove_unwanted_flags_missing_flag_ignored_witness :
    (∃ r, remove_unwanted_pytorch_nvcc_flags ["-O3"] = Except.ok r) ∧
    removeFlagCaught ["-O3"] "-D__CUDA_NO_HALF_OPERATORS__" = Except.ok ["-O3"] :=
  ⟨(remove_unwanted_flags_missing_flag_ignored ["-O3"]).1,
   (remove_unwanted_flags_missing_flag_ignored ["-O3"]).2
     "-D__CUDA_NO_HALF_OPERATORS__" (by decide)⟩

lemma removeEntries_of_files : ∀ (entries : List DirEntry),
    (∀ e ∈ entries, e.kind = EntryKind.file) →
    removeEntries entries = (none, [])
  | [], _ => rfl
  | ⟨n, k⟩ :: rest, h => by
    cases k with
    | file =>
      exact removeEntries_of_files rest
        (fun x hx => h x (List.mem_cons_of_mem _ hx))
    | dir =>
      exact absurd (h ⟨n, EntryKind.dir⟩ (List.mem_cons_self _ _)) (by simp)

/-- Counterexample to C3 as stated: on a populated JIT directory whose
entry is a subdirectory (as `load_cuda_ops` itself creates, one per
module), `os.remove` raises `IsADirectoryError`, so `clear_cache_dir`
neither terminates normally nor empties the directory. -/
theorem clear_cache_dir_subdir_counterexample :
    clear_cache_dir true [⟨"module_a", EntryKind.dir⟩] =
      (some PyError.isADirectoryError, [⟨"module_a", EntryKind.dir⟩], true) ∧
    clear_cache_dir true [⟨"module_a", EntryKind.dir⟩] ≠ (none, [], true) := by
  decide

/-- C3 (amended): on a populated JIT directory all of whose entries are
regular files, `clear_cache_dir` removes every file, terminates
normally, and leaves the directory itself present and empty. -/
theorem clear_cache_dir_removes_all_files (entries : List DirEntry)
    (_hne : entries ≠ [])
    (hfiles : ∀ e ∈ entries, e.kind = EntryKind.file) :
    clear_cache_dir true entries = (none, [], true) := by
  simp [clear_cache_dir, removeEntries_of_files entries hfiles]

/-- Witness for the amended C3 at a directory holding two lock files. -/
theorem clear_cache_dir_removes_all_files_witness :
    clear_cache_dir true
      [⟨"a.lock", EntryKind.file⟩, ⟨"b.lock", EntryKind.file⟩] =
      (none, [], true) :=
  clear_cache_dir_removes_all_files
    [⟨"a.lock", EntryKind.file⟩, ⟨"b.lock", EntryKind.file⟩]
    (by decide) (by decide)

/-- C7: at module import, the workspace root is created when absent
(its path is added, all previously existing paths are kept) and the
file system is left entirely untouched when it is already present. -/
theorem make_workspace_dir_spec (fs : List String) (dir : String) :
    dir ∈ make_workspace_dir fs dir ∧
    (dir ∈ fs → make_workspace_dir fs dir = fs) ∧
    (dir ∉ fs → make_workspace_dir fs dir = dir :: fs) := by
  refine ⟨?_, fun h => by simp [make_workspace_dir, h],
    fun h => by simp [make_workspace_dir, h]⟩
  by_cases h : dir ∈ fs
  · simp [make_workspace_dir, h]
  · simp [make_workspace_dir, h]

/-- Witness for C7 at a concrete file system missing the workspace. -/
theorem make_workspace_dir_spec_witness :
    "/root/.flashinfer" ∈ make_workspace_dir ["/tmp"] "/root/.flashinfer" ∧
    make_workspace_dir ["/tmp"] "/root/.flashinfer" =
      "/root/.flashinfer" :: ["/tmp"] :=
  ⟨(make_workspace_dir_spec ["/tmp"] "/root/.flashinfer").1,
   (make_workspace_dir_spec ["/tmp"] "/root/.flashinfer").2.2 (by decide)⟩

/-- C8: when the optional `aot_config` import fails, setup succeeds with
an empty `prebuilt_ops_uri` and `has_prebuilt_ops = false`; when it
succeeds, its registry is used and the indicator is `true`. -/
theorem init_prebuilt_ops_spec (imported : Option (List String)) :
    (imported = none → init_prebuilt_ops imported = ([], false)) ∧
    (∀ r, imported = some r → init_prebuilt_ops imported = (r, true)) := by
  constructor
  · intro h
    subst h
    rfl
  · intro r h
    subst h
    rfl

/-- Witness for C8 at both a failing and a succeeding import. -/
theorem init_prebuilt_ops_spec_witness :
    init_prebuilt_ops none = ([], false) ∧
    init_prebuilt_ops (some ["batch_decode"]) = (["batch_decode"], true) :=
  ⟨(init_prebuilt_ops_spec none).1 rfl,
   (init_prebuilt_ops_spec (some ["batch_decode"])).2 ["batch_decode"] rfl⟩

/-- C2: when the architecture check fails, `load_cuda_ops` returns that
fatal exception before the underlying loader runs — the loader is never
called and no per-module build directory is created; when the check
passes, the result is exactly whatever the underlying loader returns,
with no exception added or transformed. -/
theorem load_cuda_ops_error_propagation {M : Type} (env : JitEnv)
    (buildDirExists : Bool) (loader : LoadCall → Except PyError M)
    (name : String) (sources : List String)
    (extra_cflags extra_cuda_cflags : List String)
    (extra_ldflags : Option (List String))
    (extra_include_paths : Option (List String)) (verbose : Bool) :
    (∀ e, check_cuda_arch env.cudaArchFlags = Except.error e →
      load_cuda_ops env buildDirExists loader name sources extra_cflags
          extra_cuda_cflags extra_ldflags extra_include_paths verbose =
        (Except.error e, ⟨false, false, none, none⟩)) ∧
    (check_cuda_arch env.cudaArchFlags = Except.ok () →
      ∃ call,
        (load_cuda_ops env buildDirExists loader name sources extra_cflags
            extra_cuda_cflags extra_ldflags extra_include_paths verbose).1 =
          loader call ∧
        (load_cuda_ops env buildDirExists loader name sources extra_cflags
            extra_cuda_cflags extra_ldflags extra_include_paths verbose).2.loaderCalled =
          true) := by
  constructor
  · intro e he
    simp [load_cuda_ops, he]
  · intro hok
    refine ⟨⟨name, sources, ["-O3", "-Wno-switch-bool"] ++ extra_cflags,
      ["-O3", "-std=c++17", "--threads", "4", "-use_fast_math",
       "-DFLASHINFER_ENABLE_BF16", "-DFLASHINFER_ENABLE_FP8"] ++ extra_cuda_cflags,
      extra_ldflags,
      (match extra_include_paths with
        | none => [env.includeDir, env.csrcDir] ++ env.cutlassIncludeDirs
        | some ps => ps),
      env.jitDir ++ "/" ++ name, verbose, true⟩, ?_, ?_⟩ <;>
      simp [load_cuda_ops, hok]

/-- Witness for C2: a sub-75 architecture yields the fatal error with no
loader call, and a passing check returns the loader's own result. -/
theorem load_cuda_ops_error_propagation_witness :
    (load_cuda_ops ⟨["compute_70"], "/jit", "/inc", "/csrc", []⟩ false
        (fun _ : LoadCall => Except.ok (0 : Nat)) "m" [] [] [] none none false =
      (Except.error (PyError.runtimeError "FlashInfer requires sm75+"),
        ⟨false, false, none, none⟩)) ∧
    (∃ call,
      (load_cuda_ops ⟨["compute_80"], "/jit", "/inc", "/csrc", []⟩ false
          (fun _ : LoadCall => Except.ok (0 : Nat)) "m" [] [] [] none none false).1 =
        (fun _ : LoadCall => Except.ok (0 : Nat)) call ∧
      (load_cuda_ops ⟨["compute_80"], "/jit", "/inc", "/csrc", []⟩ false
          (fun _ : LoadCall => Except.ok (0 : Nat)) "m" [] [] [] none none false).2.loaderCalled =
        true) :=
  ⟨(load_cuda_ops_error_propagation ⟨["compute_70"], "/jit", "/inc", "/csrc", []⟩
      false (fun _ : LoadCall => Except.ok (0 : Nat)) "m" [] [] [] none none false).1
      (PyError.runtimeError "FlashInfer requires sm75+") (by decide),
   (load_cuda_ops_error_propagation ⟨["compute_80"], "/jit", "/inc", "/csrc", []⟩
      false (fun _ : LoadCall => Except.ok (0 : Nat)) "m" [] [] [] none none false).2
      (by decide)⟩

/-- C10: the loader is called with host flags exactly
`["-O3", "-Wno-switch-bool"] ++ extra_cflags`, device flags exactly the
fixed base list followed by `extra_cuda_cflags`, and, when
`extra_include_paths` is not supplied, include paths defaulting to the
native include and csrc directories followed by the CUTLASS include
directories (a supplied list is passed through unchanged). -/
theorem load_cuda_ops_flag_assembly {M : Type} (env : JitEnv)
    (buildDirExists : Bool) (loader : LoadCall → Except PyError M)
    (name : String) (sources : List String)
    (extra_cflags extra_cuda_cflags : List String)
    (extra_ldflags : Option (List String))
    (extra_include_paths : Option (List String)) (verbose : Bool)
    (h : check_cuda_arch env.cudaArchFlags = Except.ok ()) :
    ∃ call,
      (load_cuda_ops env buildDirExists loader name sources extra_cflags
          extra_cuda_cflags extra_ldflags extra_include_paths verbose).2.loadArgs =
        some call ∧
      call.extra_cflags = ["-O3", "-Wno-switch-bool"] ++ extra_cflags ∧
      call.extra_cuda_cflags =
        ["-O3", "-std=c++17", "--threads", "4", "-use_fast_math",
         "-DFLASHINFER_ENABLE_BF16", "-DFLASHINFER_ENABLE_FP8"] ++ extra_cuda_cflags ∧
      (extra_include_paths = none →
        call.extra_include_paths =
          [env.includeDir, env.csrcDir] ++ env.cutlassIncludeDirs) ∧
      (∀ ps, extra_include_paths = some ps → call.extra_include_paths = ps) := by
  refine ⟨⟨name, sources, ["-O3", "-Wno-switch-bool"] ++ extra_cflags,
    ["-O3", "-std=c++17", "--threads", "4", "-use_fast_math",
     "-DFLASHINFER_ENABLE_BF16", "-DFLASHINFER_ENABLE_FP8"] ++ extra_cuda_cflags,
    extra_ldflags,
    (match extra_include_paths with
      | none => [env.includeDir, env.csrcDir] ++ env.cutlassIncludeDirs
      | some ps => ps),
    env.jitDir ++ "/" ++ name, verbose, true⟩, ?_, rfl, rfl, ?_, ?_⟩
  · simp [load_cuda_ops, h]
  · intro hip
    subst hip
    rfl
  · intro ps hip
    subst hip
    rfl

/-- Witness for C10 at a concrete passing environment with default
include paths. -/
theorem load_cuda_ops_flag_assembly_witness :
    ∃ call,
      (load_cuda_ops ⟨["compute_80"], "/jit", "/inc", "/csrc", ["/cutlass"]⟩ false
          (fun _ : LoadCall => Except.ok (0 : Nat)) "m" ["k.cu"] ["-g"] ["-lineinfo"]
          none none false).2.loadArgs = some call ∧
      call.extra_cflags = ["-O3", "-Wno-switch-bool"] ++ ["-g"] ∧
      call.extra_cuda_cflags =
        ["-O3", "-std=c++17", "--threads", "4", "-use_fast_math",
         "-DFLASHINFER_ENABLE_BF16", "-DFLASHINFER_ENABLE_FP8"] ++ ["-lineinfo"] ∧
      ((none : Option (List String)) = none →
        call.extra_include_paths = ["/inc", "/csrc"] ++ ["/cutlass"]) ∧
      (∀ ps, (none : Option (List String)) = some ps →
        call.extra_include_paths = ps) :=
  load_cuda_ops_flag_assembly ⟨["compute_80"], "/jit", "/inc", "/csrc", ["/cutlass"]⟩
    false (fun _ : LoadCall => Except.ok (0 : Nat)) "m" ["k.cu"] ["-g"] ["-lineinfo"]
    none none false (by decide)

end FlashInferJit
